import Mathlib

/-!
Shallow embedding of the Mini-Shell command-tree execution engine
(`src/cmd.c`) and proofs about it.

Modelling conventions:
* Machine integers are `Int`; the C99 `_Bool` conversion applied at every
  `return` of a `bool`-typed function (`shell_cd`, `run_in_parallel`,
  `run_on_pipe`) is made explicit by `c2bool` (nonzero becomes 1).
* `exit(n)` truncates the status to its low 8 bits, modelled by `Int.emod _ 256`.
* OS outcomes that the engine only observes (success of `open`/`chdir`,
  success of `execvp`, the wait status of a reaped child) are oracle
  parameters.
* The two sides of a `fork` are embedded as two functions: the parent's
  continuation and the child's continuation, each transcribed from the
  corresponding branch of `if (pid == 0)`.
* File-descriptor system calls performed by the spawned child are reified
  as an event trace so that descriptor leaks are expressible.
-/

namespace MiniShell

/-- A parsed word.  `sid` models the identity of the underlying
`word_t::string` character buffer (the C code compares
`s->out->string == s->err->string` by pointer); `text` is the plain string
the external word resolver (`get_word`) produces for it.  Two distinct
buffers (`sid`s) may carry equal text — the latent defect noted in the
spec, section 4.1 step 5. -/
structure word_t where
  sid : Nat
  text : String
deriving DecidableEq, Repr

/-- One leaf of the command tree (`simple_command_t`).  `params` is the
linked parameter list; `sin` is the C field `in`; `io_flags` is the
append-flag bitmask. -/
structure simple_command_t where
  verb : Option word_t
  params : List word_t
  sin : Option word_t
  out : Option word_t
  err : Option word_t
  io_flags : Nat
deriving DecidableEq, Repr

/-- Bit for `>>` on stdout, from the parser's header (not under `src/`);
only membership in the mask matters to the engine. -/
def IO_OUT_APPEND : Nat := 1

/-- Bit for `2>>` on stderr. -/
def IO_ERR_APPEND : Nat := 2

/-- Operators of a compound command node (`op_t`). -/
inductive op_t where
  | OP_NONE
  | OP_SEQUENTIAL
  | OP_PARALLEL
  | OP_CONDITIONAL_NZERO
  | OP_CONDITIONAL_ZERO
  | OP_PIPE
  | OP_DUMMY
deriving DecidableEq, Repr

/-- A command-tree node (`command_t`).  Children and the simple command are
nullable pointers in C, hence `Option`. -/
inductive command_t where
  | mk (op : op_t) (cmd1 : Option command_t) (cmd2 : Option command_t)
       (scmd : Option simple_command_t)

/-- Sentinel from `cmd.h` (header not under `src/`); returned by the
`default` arm of the operator switch.  Its exact value is immaterial to
the claims. -/
def SHELL_EXIT : Int := -100

/-- The C99 `_Bool` conversion: a `bool`-typed `return e` delivers 1 for any
nonzero `e` and 0 otherwise. -/
def c2bool (n : Int) : Int := if n = 0 then 0 else 1

/-- How a process's run of a piece of engine code ends, as seen by that
process: it either returns an `int` status to its caller or the whole
program terminates via `exit` (the `exit`/`quit` builtin). -/
inductive ProcRes where
  | ret (status : Int)
  | progExit
deriving DecidableEq, Repr

/-- What `waitpid` reports to a parent about a reaped child: either the
child exited normally with `WEXITSTATUS` `code`, or it was terminated
abnormally (e.g. by a signal), in which case `WIFEXITED` is false. -/
inductive WaitRes where
  | exited (code : Int)
  | signaled (sig : Int)
deriving DecidableEq, Repr

/-- Resolution of a possibly-null word pointer: `get_word(NULL)` yields no
string; otherwise the resolver produces the word's text.  (`get_word`
lives in the word-resolver collaborator, outside the engine.) -/
def get_word : Option word_t → Option String
  | none => none
  | some w => some w.text

/-- Lines 22-34: the `cd` builtin.  `chdirOk path` is the OS oracle for
`chdir(path) == 0` (the path exists, is a directory and is searchable).
The function's return type is `bool`, so the `-1` error returns are
truncated by `c2bool`. -/
def shell_cd (chdirOk : String → Bool) (dir : Option word_t) : Int :=
  match dir with
  | none => c2bool (-1)
  | some d => c2bool (if chdirOk d.text then 0 else -1)

/-- The character `=` searched for by `strchr(command, 61)` in the
assignment check (61 is its code point). -/
def eqChar : Char := Char.ofNat 61

/-- Result of `parse_simple` as observed in the original (calling) process,
together with its side effects there: `touched` lists the files this
process opened with `O_CREAT|O_TRUNC` (only the `cd` branch does), and
`forked` records whether a child process was spawned. -/
structure POutcome where
  res : ProcRes
  touched : List String
  forked : Bool
deriving DecidableEq, Repr

/-- Lines 49-176: `parse_simple`, the simple-command executor, as it runs in
the original process.  `w` is the wait status the parent observes for the
spawned child on the external-command path; the spawned child's own
behaviour is embedded separately as `child_run`.  The `level`/`father`
arguments of the C function are threaded but never read, so they are
omitted.  `setenv` is modelled as succeeding (status 0). -/
def parse_simple (chdirOk : String → Bool) (w : WaitRes)
    (s : Option simple_command_t) : POutcome :=
  match s with
  | none => ⟨ProcRes.ret 0, [], false⟩
  | some sc =>
    match sc.verb with
    | none => ⟨ProcRes.ret 0, [], false⟩
    | some vb =>
      let command := vb.text
      if command = "cd" then
        -- open(get_word(s->out), O_WRONLY|O_CREAT|O_TRUNC, 0644); close(fd):
        -- when an out-target is present the file is created/truncated;
        -- when it is absent, open(NULL) fails and close(-1) is a no-op.
        let touched := match get_word sc.out with
          | some path => [path]
          | none => []
        ⟨ProcRes.ret (shell_cd chdirOk sc.params.head?), touched, false⟩
      else if command = "exit" ∨ command = "quit" then
        -- shell_exit: exit(0) — the whole program terminates.
        ⟨ProcRes.progExit, [], false⟩
      else if command.data.contains eqChar then
        -- environment assignment NAME=VALUE via setenv(..., 1).
        ⟨ProcRes.ret 0, [], false⟩
      else
        -- fork(); parent path: int value = 0; waitpid(pid, &status, 0);
        -- if (WIFEXITED(status)) return WEXITSTATUS(status);
        -- otherwise fall through to `return value` (still 0).
        let value : Int := 0
        match w with
        | WaitRes.exited code => ⟨ProcRes.ret code, [], true⟩
        | WaitRes.signaled _ => ⟨ProcRes.ret value, [], true⟩

/-- A file-descriptor system call performed by the spawned child during
redirection setup: a successful `open` allocating `fd` for `path`, a
successful `dup2(src, dst)`, or a successful `close fd`.  Failed calls
(`open` returning -1, `dup2`/`close` on -1) produce no event. -/
inductive FdEvent where
  | opened (fd : Int) (path : String)
  | dupd (src dst : Int)
  | closed (fd : Int)
deriving DecidableEq, Repr

/-- Child-process descriptor state: the next free descriptor number (3 right
after the fork, 0-2 being the standard streams), the trace of descriptor
events so far, and whether standard input has been successfully rebound by
a `dup2(_, STDIN_FILENO)`. -/
structure ChildSt where
  next : Int
  events : List FdEvent
  stdinBound : Bool
deriving DecidableEq, Repr

/-- Descriptor state of the freshly forked child. -/
def initChildSt : ChildSt := ⟨3, [], false⟩

def STDIN_FILENO : Int := 0
def STDOUT_FILENO : Int := 1
def STDERR_FILENO : Int := 2

/-- `open`: on success returns the lowest free descriptor and records the
event; on failure returns -1 and leaves the state unchanged. -/
def c_open (ok : Bool) (path : String) (st : ChildSt) : Int × ChildSt :=
  if ok then
    (st.next, { st with next := st.next + 1,
                        events := st.events ++ [FdEvent.opened st.next path] })
  else (-1, st)

/-- `dup2(src, dst)`: fails (no effect) when `src` is not a valid
descriptor, e.g. the -1 of a failed `open`; on success records the event
and, when `dst` is standard input, marks it rebound. -/
def c_dup2 (src dst : Int) (st : ChildSt) : ChildSt :=
  if 0 ≤ src then
    { st with events := st.events ++ [FdEvent.dupd src dst],
              stdinBound := if dst = 0 then true else st.stdinBound }
  else st

/-- `close fd`: a no-op on an invalid descriptor such as -1. -/
def c_close (fd : Int) (st : ChildSt) : ChildSt :=
  if 0 ≤ fd then { st with events := st.events ++ [FdEvent.closed fd] }
  else st

/-- Text of a word pointer that the guarding branch condition has already
established to be non-null. -/
def wordText : Option word_t → String
  | some w => w.text
  | none => ""

/-- Identity of the `string` buffer of a word pointer already established
to be non-null (models the pointer compared by `s->out->string ==
s->err->string`). -/
def wordSid : Option word_t → Nat
  | some w => w.sid
  | none => 0

/-- Lines 86-95 of `parse_simple`, in the child: `< file` input
redirection.  `openROk path` is the OS oracle for `open(path, O_RDONLY)`
succeeding (the path exists and is readable).  Note that a failed `open`
is not checked: the child simply issues `dup2(-1, STDIN_FILENO)` (which
fails) and `close(-1)` and carries on. -/
def child_stdin_redirect (openROk : String → Bool) (s : simple_command_t)
    (st : ChildSt) : ChildSt :=
  match s.sin with
  | some w =>
      let (input_fd, st1) := c_open (openROk w.text) w.text st
      c_close input_fd (c_dup2 input_fd STDIN_FILENO st1)
  | none => st

/-- Lines 96-156 of `parse_simple`, in the child: the output/error
redirection else-if chain, transcribed branch for branch.  Opens with
`O_CREAT` for writing are modelled as succeeding.  In the branch for
distinct stdout/stderr targets the first descriptor is overwritten without
being closed, exactly as in the source. -/
def child_out_redirect (s : simple_command_t) (st : ChildSt) : ChildSt :=
  if s.out.isSome ∧ s.io_flags &&& IO_OUT_APPEND ≠ 0 then
    -- >> filename
    let (fd, st1) := c_open true (wordText s.out) st
    c_close fd (c_dup2 fd STDOUT_FILENO st1)
  else if s.err.isSome ∧ s.io_flags &&& IO_ERR_APPEND ≠ 0 then
    -- 2>> filename
    let (fd, st1) := c_open true (wordText s.err) st
    c_close fd (c_dup2 fd STDERR_FILENO st1)
  else if s.out.isSome ∧ s.err.isSome ∧ wordSid s.out = wordSid s.err then
    -- &> filename, combined stream: one file, both streams rebound to it
    let (fd, st1) := c_open true (wordText s.out) st
    c_close fd (c_dup2 fd STDERR_FILENO (c_dup2 fd STDOUT_FILENO st1))
  else if s.out.isSome ∧ s.err.isSome ∧ wordSid s.out ≠ wordSid s.err then
    -- distinct targets: the first descriptor is dup'd to stdout and then
    -- the variable is reused for the stderr target; no close intervenes
    let (fd1, st1) := c_open true (wordText s.out) st
    let st2 := c_dup2 fd1 STDOUT_FILENO st1
    let (fd2, st3) := c_open true (wordText s.err) st2
    c_close fd2 (c_dup2 fd2 STDERR_FILENO st3)
  else if s.out.isSome ∧ s.io_flags &&& IO_OUT_APPEND = 0 ∧ s.err.isNone then
    -- > filename
    let (fd, st1) := c_open true (wordText s.out) st
    c_close fd (c_dup2 fd STDOUT_FILENO st1)
  else if s.err.isSome ∧ s.io_flags &&& IO_ERR_APPEND = 0 ∧ s.out.isNone then
    -- 2> filename
    let (fd, st1) := c_open true (wordText s.err) st
    c_close fd (c_dup2 fd STDERR_FILENO st1)
  else st

/-- Modelled from the spec: `get_argv` (in the word-resolver collaborator,
not under `src/`) builds the resolved argument vector with `argv[0]` the
verb followed by the parameters, and stores the element count in its
out-parameter `value`. -/
def get_argv_size (s : simple_command_t) : Int := 1 + s.params.length

/-- How the spawned child of the external-command path ends: either
`execvp` succeeds and the program image is replaced (`launched`, recording
whether stdin was actually rebound and the descriptor trace the program
inherits), or `execvp` fails and the child falls out of the
`if (pid == 0)` block, reaching `return value` at the end of
`parse_simple` — it returns to its caller inside the child process instead
of terminating. -/
inductive ChildEnd where
  | launched (stdinBound : Bool) (events : List FdEvent)
  | returned (value : Int) (events : List FdEvent)
deriving DecidableEq, Repr

/-- Lines 85-164 of `parse_simple`: the complete behaviour of the spawned
child on the external-command path.  `execOk` is the OS oracle for
`execvp` locating and executing the program. -/
def child_run (openROk : String → Bool) (execOk : Bool)
    (s : simple_command_t) : ChildEnd :=
  let st := child_out_redirect s (child_stdin_redirect openROk s initChildSt)
  if execOk then ChildEnd.launched st.stdinBound st.events
  else ChildEnd.returned (get_argv_size s) st.events

/-- Descriptors successfully opened during redirection setup. -/
def openedFds (evs : List FdEvent) : List Int :=
  evs.filterMap fun e =>
    match e with
    | FdEvent.opened fd _ => some fd
    | _ => none

/-- Descriptors closed during redirection setup. -/
def closedFds (evs : List FdEvent) : List Int :=
  evs.filterMap fun e =>
    match e with
    | FdEvent.closed fd => some fd
    | _ => none

/-- Descriptors opened for a redirection target and never closed. -/
def leakedFds (evs : List FdEvent) : List Int :=
  (openedFds evs).filter fun fd => ¬ fd ∈ closedFds evs

/-- `WEXITSTATUS` observed for a child that ran `exit(parse_command(...))`:
`exit` truncates the status to its low 8 bits; the `exit`/`quit` builtin
inside the child terminates it with `exit(0)`. -/
def child_exit_status : ProcRes → Int
  | ProcRes.ret n => n.emod 256
  | ProcRes.progExit => 0

/-- How a forked branch of `run_in_parallel`/`run_on_pipe` ends inside its
own process: it either terminates via `exit status`, or it returns from
the orchestration function and keeps running the parent's code in the
child process. -/
inductive BranchEnd where
  | exits (status : Int)
  | returns (status : Int)
deriving DecidableEq, Repr

/-- Lines 184-188 and 198 of `run_in_parallel`, in the forked child:
`value = parse_command(cmd1, ...)` followed by `return value` — no `exit`.
The `int` value is truncated by the `bool` return type.  `left` is the
result of the child's recursive `parse_command` on the left command; an
`exit` builtin inside it does terminate the child (with status 0). -/
def run_in_parallel_child (left : ProcRes) : BranchEnd :=
  match left with
  | ProcRes.progExit => BranchEnd.exits 0
  | ProcRes.ret v => BranchEnd.returns (c2bool v)

/-- Lines 181-199 of `run_in_parallel`, in the original process: run the
right command in-process, reap the forked child with `waitpid`, and if
`WIFEXITED` return `WEXITSTATUS` — both through the `bool` return type.
`w` is the observed wait status of the forked (left-branch) child. -/
def run_in_parallel_parent (right : ProcRes) (w : WaitRes) : ProcRes :=
  match right with
  | ProcRes.progExit => ProcRes.progExit
  | ProcRes.ret value =>
    match w with
    | WaitRes.exited code => ProcRes.ret (c2bool code)
    | WaitRes.signaled _ => ProcRes.ret (c2bool value)

/-- Lines 204-241 of `run_on_pipe`, in the original process: both children
are forked (each ends with `exit(parse_command(...))`), both pipe ends are
closed in the parent, and both children are reaped — the first `waitpid`
overwrites `status` with the left child's wait status, the second with the
right child's, so the returned value is `WEXITSTATUS` of the right
(consumer) child, truncated by the `bool` return type.  `left` is noted
but does not flow into the result. -/
def run_on_pipe_model (left right : ProcRes) : ProcRes :=
  let _ := child_exit_status left
  ProcRes.ret (c2bool (child_exit_status right))

mutual
/-- Lines 246-289: `parse_command`, the compound-command interpreter, on a
possibly-null tree pointer.  `σ` gives the outcome of `parse_simple` for a
leaf as run in the current process (instantiate with `engine_simple` for
the concrete executor); `parW` is the wait status the parent of a
`PARALLEL` node observes for its forked child (not determined by the
subtree alone, because that child does not `exit` after its branch). -/
def parse_command (σ : Option simple_command_t → ProcRes) (parW : WaitRes) :
    Option command_t → ProcRes
  | none => ProcRes.ret (-1)
  | some c => parse_command_t σ parW c

/-- The operator dispatch of `parse_command` on a non-null node. -/
def parse_command_t (σ : Option simple_command_t → ProcRes) (parW : WaitRes) :
    command_t → ProcRes
  | command_t.mk op_t.OP_NONE _ _ scmd => σ scmd
  | command_t.mk op_t.OP_SEQUENTIAL c1 c2 _ =>
    -- ret = parse_command(cmd1); ret = parse_command(cmd2): the first
    -- status is overwritten unless the left side exits the program.
    match parse_command σ parW c1 with
    | ProcRes.progExit => ProcRes.progExit
    | ProcRes.ret _ => parse_command σ parW c2
  | command_t.mk op_t.OP_PARALLEL _ c2 _ =>
    run_in_parallel_parent (parse_command σ parW c2) parW
  | command_t.mk op_t.OP_CONDITIONAL_NZERO c1 c2 _ =>
    match parse_command σ parW c1 with
    | ProcRes.progExit => ProcRes.progExit
    | ProcRes.ret r => if r ≠ 0 then parse_command σ parW c2 else ProcRes.ret r
  | command_t.mk op_t.OP_CONDITIONAL_ZERO c1 c2 _ =>
    match parse_command σ parW c1 with
    | ProcRes.progExit => ProcRes.progExit
    | ProcRes.ret r => if r = 0 then parse_command σ parW c2 else ProcRes.ret r
  | command_t.mk op_t.OP_PIPE c1 c2 _ =>
    run_on_pipe_model (parse_command σ parW c1) (parse_command σ parW c2)
  | command_t.mk op_t.OP_DUMMY _ _ _ => ProcRes.ret SHELL_EXIT
end

/-- The concrete leaf evaluator: `parse_simple`'s result in the current
process, with the given OS oracles. -/
def engine_simple (chdirOk : String → Bool) (w : WaitRes)
    (sc : Option simple_command_t) : ProcRes :=
  (parse_simple chdirOk w sc).res

/-- `ChildEnd` observation: the program image was replaced while standard
input kept its inherited (default) binding. -/
def launchedWithUnboundStdin : ChildEnd → Bool
  | ChildEnd.launched b _ => !b
  | ChildEnd.returned _ _ => false

/-- `ChildEnd` observation: the child fell out of the `if (pid == 0)` block
and returned from `parse_simple` inside the child process, continuing the
parent's code. -/
def returnsToCaller : ChildEnd → Bool
  | ChildEnd.returned _ _ => true
  | ChildEnd.launched _ _ => false

lemma c_dup2_stdinBound (src dst : Int) (st : ChildSt) (h : dst ≠ 0) :
    (c_dup2 src dst st).stdinBound = st.stdinBound := by
  simp only [c_dup2]
  split <;> simp [h]

lemma c_close_stdinBound (fd : Int) (st : ChildSt) :
    (c_close fd st).stdinBound = st.stdinBound := by
  simp only [c_close]
  split <;> rfl

lemma c_open_stdinBound (ok : Bool) (p : String) (st : ChildSt) :
    ((c_open ok p st).2).stdinBound = st.stdinBound := by
  simp only [c_open]
  split <;> rfl

/-- The output/error redirection chain never rebinds standard input: every
`dup2` in it targets stream 1 or 2. -/
lemma child_out_redirect_stdinBound (s : simple_command_t) (st : ChildSt) :
    (child_out_redirect s st).stdinBound = st.stdinBound := by
  simp only [child_out_redirect, STDOUT_FILENO, STDERR_FILENO]
  repeat' split
  all_goals
    simp [c_open, c_dup2, c_close]
  all_goals
    repeat' split
  all_goals rfl

/- Concrete inputs used by the closed theorems and witnesses. -/

/-- A leaf node with a null simple command. -/
def leaf0 : command_t := command_t.mk op_t.OP_NONE none none none

/-- Leaf evaluator assigning every leaf the status 5. -/
def σ0 : Option simple_command_t → ProcRes := fun _ => ProcRes.ret 5

/-- An external command `ls` with no redirections. -/
def sExt : simple_command_t := ⟨some ⟨0, "ls"⟩, [], none, none, none, 0⟩

/-- `cd nodir > log`. -/
def sCd : simple_command_t :=
  ⟨some ⟨0, "cd"⟩, [⟨1, "nodir"⟩], none, some ⟨2, "log"⟩, none, 0⟩

/-- A simple command whose verb is null. -/
def sNoVerb : simple_command_t := ⟨none, [], none, none, none, 0⟩

/-- An external command with stdout and stderr redirected to two distinct
targets (`prog > fileA 2> fileB`). -/
def sTwoTargets : simple_command_t :=
  ⟨some ⟨0, "prog"⟩, [], none, some ⟨1, "fileA"⟩, some ⟨2, "fileB"⟩, 0⟩

/-- An external command reading from a redirected input (`prog < nofile`). -/
def sInRedir : simple_command_t :=
  ⟨some ⟨0, "prog"⟩, [], some ⟨1, "nofile"⟩, none, none, 0⟩

/-- The left producer leaf of the concrete pipe. -/
def sPipeL : simple_command_t := ⟨some ⟨10, "left"⟩, [], none, none, none, 0⟩

/-- The right consumer leaf of the concrete pipe. -/
def sPipeR : simple_command_t := ⟨some ⟨11, "right"⟩, [], none, none, none, 0⟩

/-- Leaf evaluator giving the consumer leaf status 2 and every other leaf
status 0. -/
def σpipe : Option simple_command_t → ProcRes :=
  fun sc => if sc = some sPipeR then ProcRes.ret 2 else ProcRes.ret 0

/- ===================== Claim theorems ===================== -/

/-- Claim C1: the spec demands that an external child terminated abnormally
(killed by a signal) yields a non-zero status; the code instead falls
through `if (WIFEXITED(status))` to `return value` with `value` still 0,
reporting success for every signal. -/
theorem signaled_child_reported_success (chdirOk : String → Bool)
    (s : simple_command_t) (vb : word_t) (sig : Int)
    (hv : s.verb = some vb)
    (hcd : vb.text ≠ "cd") (hx : vb.text ≠ "exit") (hq : vb.text ≠ "quit")
    (ha : eqChar ∉ vb.text.data) :
    (parse_simple chdirOk (WaitRes.signaled sig) (some s)).res = ProcRes.ret 0 ∧
    (parse_simple chdirOk (WaitRes.signaled sig) (some s)).forked = true := by
  constructor <;> simp [parse_simple, hv, hcd, hx, hq, ha]

theorem signaled_child_reported_success_witness :
    sExt.verb = some ⟨0, "ls"⟩ ∧
    (parse_simple (fun _ => true) (WaitRes.signaled 9) (some sExt)).res =
      ProcRes.ret 0 :=
  ⟨rfl, (signaled_child_reported_success (fun _ => true) sExt ⟨0, "ls"⟩ 9 rfl
      (by decide) (by decide) (by decide) (by decide)).1⟩

/-- Claim C2: the spec demands that a child whose `execvp` fails terminates
with a distinct non-zero status; the code instead frees its buffers and
falls out of the `if (pid == 0)` block to `return value`, so the child
returns from `parse_simple` and keeps executing the parent's code. -/
theorem exec_failure_child_falls_through (openROk : String → Bool)
    (s : simple_command_t) :
    returnsToCaller (child_run openROk false s) = true ∧
    ∀ b evs, child_run openROk false s ≠ ChildEnd.launched b evs := by
  constructor
  · rfl
  · intro b evs h
    exact ChildEnd.noConfusion h

/-- Claim C3: in `run_on_pipe` both children are reaped, but the returned
value is `WEXITSTATUS` of the right child squeezed through the function's
`bool` return type: a consumer exiting with status 2 makes the `PIPE` node
report 1, not 2. -/
theorem pipe_status_truncated :
    parse_command σpipe (WaitRes.exited 0)
      (some (command_t.mk op_t.OP_PIPE
        (some (command_t.mk op_t.OP_NONE none none (some sPipeL)))
        (some (command_t.mk op_t.OP_NONE none none (some sPipeR))) none)) =
      ProcRes.ret 1 ∧
    σpipe (some sPipeR) = ProcRes.ret 2 ∧
    ProcRes.ret 1 ≠ ProcRes.ret 2 := by
  refine ⟨by decide, by decide, by decide⟩

/-- Claim C4: the spec demands that the forked branch of a `PARALLEL` node
execute only the left command and terminate; the code's child branch ends
with `return value` instead of `exit`, so for every ordinary left status it
returns from `run_in_parallel` (truncated by the `bool` type) and continues
running the parent's code — it never exits. -/
theorem parallel_child_never_exits (v : Int) :
    run_in_parallel_child (ProcRes.ret v) = BranchEnd.returns (c2bool v) ∧
    ∀ st : Int, run_in_parallel_child (ProcRes.ret v) ≠ BranchEnd.exits st := by
  refine ⟨rfl, fun st h => BranchEnd.noConfusion h⟩

/-- Claim C5: the spec demands that a failed input redirection prevent the
program from launching; the code never checks the failed `open`, issues a
no-op `dup2(-1, STDIN_FILENO)`, and still reaches `execvp`, launching the
program with its inherited standard input. -/
theorem input_redirect_failure_still_launches (openROk : String → Bool)
    (s : simple_command_t) (w : word_t)
    (hin : s.sin = some w) (hopen : openROk w.text = false) :
    launchedWithUnboundStdin (child_run openROk true s) = true := by
  have h1 : child_stdin_redirect openROk s initChildSt = initChildSt := by
    simp [child_stdin_redirect, hin, c_open, hopen, c_dup2, c_close]
  have h2 : (child_out_redirect s
      (child_stdin_redirect openROk s initChildSt)).stdinBound = false := by
    rw [h1, child_out_redirect_stdinBound]
    rfl
  simp [child_run, launchedWithUnboundStdin, h2]

theorem input_redirect_failure_still_launches_witness :
    sInRedir.sin = some ⟨1, "nofile"⟩ ∧
    launchedWithUnboundStdin (child_run (fun _ => false) true sInRedir) = true :=
  ⟨rfl, input_redirect_failure_still_launches (fun _ => false) sInRedir
      ⟨1, "nofile"⟩ rfl rfl⟩

/-- Claim C6: in the branch redirecting stdout and stderr to two distinct
targets, the descriptor opened for the stdout target (here fd 3) is dup'd
onto stream 1 and then the variable is reused for the stderr target without
an intervening `close` — fd 3 is never closed and leaks. -/
theorem distinct_targets_leak_fd :
    (child_out_redirect sTwoTargets initChildSt).events =
      [FdEvent.opened 3 "fileA", FdEvent.dupd 3 STDOUT_FILENO,
       FdEvent.opened 4 "fileB", FdEvent.dupd 4 STDERR_FILENO,
       FdEvent.closed 4] ∧
    leakedFds (child_out_redirect sTwoTargets initChildSt).events = [3] := by
  refine ⟨by decide, by decide⟩

/-- Claim C7: a `SEQUENTIAL` node runs the left child, discards its status
(whatever it was), runs the right child, and returns the right child's
status — no short-circuit. -/
theorem sequential_returns_right_status (σ : Option simple_command_t → ProcRes)
    (parW : WaitRes) (c1 c2 : Option command_t) (scmd : Option simple_command_t)
    (a : Int) (h : parse_command σ parW c1 = ProcRes.ret a) :
    parse_command σ parW (some (command_t.mk op_t.OP_SEQUENTIAL c1 c2 scmd)) =
      parse_command σ parW c2 := by
  simp [parse_command, parse_command_t, h]

theorem sequential_returns_right_status_witness :
    parse_command σ0 (WaitRes.exited 0)
      (some (command_t.mk op_t.OP_SEQUENTIAL (some leaf0) (some leaf0) none)) =
      parse_command σ0 (WaitRes.exited 0) (some leaf0) :=
  sequential_returns_right_status σ0 (WaitRes.exited 0) (some leaf0)
    (some leaf0) none 5 rfl

/-- Claim C8: a conditional node runs the right child iff the left status
satisfies the operator's test — equal to 0 for `OP_CONDITIONAL_ZERO`
(`AND_IF_ZERO`), non-zero for `OP_CONDITIONAL_NZERO` (`OR_IF_NONZERO`) —
and returns the right child's status when it runs, the left child's
otherwise. -/
theorem conditional_right_runs_iff (σ : Option simple_command_t → ProcRes)
    (parW : WaitRes) (c1 c2 : Option command_t) (scmd : Option simple_command_t)
    (a : Int) (h : parse_command σ parW c1 = ProcRes.ret a) :
    (parse_command σ parW
        (some (command_t.mk op_t.OP_CONDITIONAL_ZERO c1 c2 scmd)) =
      if a = 0 then parse_command σ parW c2 else ProcRes.ret a) ∧
    (parse_command σ parW
        (some (command_t.mk op_t.OP_CONDITIONAL_NZERO c1 c2 scmd)) =
      if a = 0 then ProcRes.ret a else parse_command σ parW c2) := by
  constructor <;> simp [parse_command, parse_command_t, h]

theorem conditional_right_runs_iff_witness :
    (parse_command σ0 (WaitRes.exited 0)
        (some (command_t.mk op_t.OP_CONDITIONAL_ZERO (some leaf0) (some leaf0) none)) =
      if (5 : Int) = 0 then parse_command σ0 (WaitRes.exited 0) (some leaf0)
      else ProcRes.ret 5) ∧
    (parse_command σ0 (WaitRes.exited 0)
        (some (command_t.mk op_t.OP_CONDITIONAL_NZERO (some leaf0) (some leaf0) none)) =
      if (5 : Int) = 0 then ProcRes.ret 5
      else parse_command σ0 (WaitRes.exited 0) (some leaf0)) :=
  conditional_right_runs_iff σ0 (WaitRes.exited 0) (some leaf0) (some leaf0)
    none 5 rfl

/-- Claim C9: for a `cd` leaf, a present output-redirection target is
created/truncated (observable even though cd writes nothing), the builtin
reports a non-zero status when `chdir` fails on the resolved first
parameter, and no process is spawned. -/
theorem cd_builtin_contract (chdirOk : String → Bool) (w : WaitRes)
    (s : simple_command_t) (vb : word_t)
    (hv : s.verb = some vb) (hcd : vb.text = "cd") :
    (∀ ow : word_t, s.out = some ow →
        (parse_simple chdirOk w (some s)).touched = [ow.text]) ∧
    (∀ pw : word_t, s.params.head? = some pw → chdirOk pw.text = false →
        ∃ n : Int, (parse_simple chdirOk w (some s)).res = ProcRes.ret n ∧
          n ≠ 0) ∧
    (parse_simple chdirOk w (some s)).forked = false := by
  refine ⟨?_, ?_, ?_⟩
  · intro ow how
    simp [parse_simple, hv, hcd, get_word, how]
  · intro pw hp hc
    refine ⟨1, ?_, by norm_num⟩
    simp [parse_simple, hv, hcd, shell_cd, hp, hc, c2bool]
  · simp [parse_simple, hv, hcd]

theorem cd_builtin_contract_witness :
    (parse_simple (fun _ => false) (WaitRes.exited 0) (some sCd)).touched =
      ["log"] ∧
    (∃ n : Int, (parse_simple (fun _ => false) (WaitRes.exited 0)
        (some sCd)).res = ProcRes.ret n ∧ n ≠ 0) ∧
    (parse_simple (fun _ => false) (WaitRes.exited 0) (some sCd)).forked =
      false := by
  have h := cd_builtin_contract (fun _ => false) (WaitRes.exited 0) sCd
    ⟨0, "cd"⟩ rfl rfl
  exact ⟨h.1 ⟨2, "log"⟩ rfl, h.2.1 ⟨1, "nodir"⟩ rfl rfl, h.2.2⟩

/-- Claim C10: `parse_command` on a null tree returns -1, while a `NONE`
leaf whose simple command or verb is null returns 0 without touching any
file or spawning a process. -/
theorem null_tree_and_null_leaf (chdirOk : String → Bool) (w parW : WaitRes)
    (c1 c2 : Option command_t) (s : simple_command_t) (hv : s.verb = none) :
    parse_command (engine_simple chdirOk w) parW none = ProcRes.ret (-1) ∧
    parse_command (engine_simple chdirOk w) parW
      (some (command_t.mk op_t.OP_NONE c1 c2 none)) = ProcRes.ret 0 ∧
    parse_command (engine_simple chdirOk w) parW
      (some (command_t.mk op_t.OP_NONE c1 c2 (some s))) = ProcRes.ret 0 ∧
    (parse_simple chdirOk w (some s)).touched = [] ∧
    (parse_simple chdirOk w (some s)).forked = false := by
  refine ⟨rfl, rfl, ?_, ?_, ?_⟩ <;>
    simp [parse_command, parse_command_t, engine_simple, parse_simple, hv]

theorem null_tree_and_null_leaf_witness :
    sNoVerb.verb = none ∧
    parse_command (engine_simple (fun _ => true) (WaitRes.exited 0))
      (WaitRes.exited 0) none = ProcRes.ret (-1) ∧
    parse_command (engine_simple (fun _ => true) (WaitRes.exited 0))
      (WaitRes.exited 0)
      (some (command_t.mk op_t.OP_NONE none none (some sNoVerb))) =
      ProcRes.ret 0 :=
  ⟨rfl,
   (null_tree_and_null_leaf (fun _ => true) (WaitRes.exited 0)
      (WaitRes.exited 0) none none sNoVerb rfl).1,
   (null_tree_and_null_leaf (fun _ => true) (WaitRes.exited 0)
      (WaitRes.exited 0) none none sNoVerb rfl).2.2.1⟩

end MiniShell
